import Mathlib

/-!
Shallow embedding of the MES design-pattern repository.

Part 1 embeds `src/design_pattern/behavioral_patterns/decorator_pattern/main.py`:
the `UserRole` IntEnum, the `require_permission` authorization decorator, the
`sync_to_erp` post-success decorator, and the decorated terminal operation
`report_production`.  Python side effects (the print statements) are modelled
as an explicit event log: each `Event` constructor stands for one print site
of the source.  A fallible Python call (one that can raise `TypeError`, as the
comparison of the default string `"Guest"` with an `IntEnum` member does)
returns `Except PyErr`.

Part 2 embeds `src/design_pattern/behavioral_patterns/observer_pattern/main.py`:
the `Observable` registry (`register_observer` / `remove_observer`), the
`Machine` subject with `notify_observers` / `set_status`.  A Python `for`
statement over a list iterates by index against the *live* list, so
`notifyLoop` is an index-based loop; observer `update` bodies are modelled by
their effect on the registry (`ObsAction`).
-/

/-- Source `class UserRole(IntEnum)` with GUEST = 1, OPERATOR = 2, ADMIN = 3. -/
inductive UserRole : Type where
  | GUEST : UserRole
  | OPERATOR : UserRole
  | ADMIN : UserRole
deriving DecidableEq

/-- The integer value of the IntEnum member (1, 2, 3 as in the source). -/
def UserRole.toNat : UserRole → Nat
  | UserRole.GUEST => 1
  | UserRole.OPERATOR => 2
  | UserRole.ADMIN => 3

/-- How the member renders inside the denial f-string. -/
def UserRole.repr : UserRole → String
  | UserRole.GUEST => "UserRole.GUEST"
  | UserRole.OPERATOR => "UserRole.OPERATOR"
  | UserRole.ADMIN => "UserRole.ADMIN"

/-- The dict literal returned by `report_production`:
`\x7b"order_id": order_id, "status": "completed"\x7d`. -/
structure ProdRecord : Type where
  order_id : String
  status : String
deriving DecidableEq

/-- A Python value a terminal operation may return: `None`, an empty dict, or
the populated production record.  Mirrors the truthiness cases `if result:`
distinguishes. -/
inductive TermResult : Type where
  | pyNone : TermResult
  | emptyDict : TermResult
  | record (r : ProdRecord) : TermResult
deriving DecidableEq

/-- Python truthiness of the result: `None` and an empty dict are falsy; a
populated dict is truthy. -/
def TermResult.truthy : TermResult → Bool
  | TermResult.record _ => true
  | _ => false

/-- One observable side effect of the decorator module; each constructor is one
print site of the source: the permission-refusal print in
`require_permission.wrapper`, the report print in the body of
`report_production`, and the ERP-synchronisation prints in
`sync_to_erp.wrapper`. -/
inductive Event : Type where
  | denied (msg : String) : Event
  | report (order_id : String) (quantity : Nat) : Event
  | syncERP (order_id : String) : Event
deriving DecidableEq

/-- Number of terminal-body executions recorded in an event log. -/
def countReport (l : List Event) : Nat :=
  (l.filter fun e => match e with | Event.report _ _ => true | _ => false).length

/-- Number of ERP synchronisation side effects recorded in an event log. -/
def countSync (l : List Event) : Nat :=
  (l.filter fun e => match e with | Event.syncERP _ => true | _ => false).length

/-- Whether the call site passed the `user_role` keyword argument. -/
inductive RoleArg : Type where
  | given (r : UserRole) : RoleArg
  | missing : RoleArg
deriving DecidableEq

/-- The value `kwargs.get("user_role", "Guest")` evaluates to: either the
`UserRole` member that was passed, or the default string `"Guest"`. -/
inductive RoleVal : Type where
  | role (r : UserRole) : RoleVal
  | pyStr (s : String) : RoleVal
deriving DecidableEq

/-- The exception the decorator module can raise. -/
inductive PyErr : Type where
  | typeError : PyErr
deriving DecidableEq

/-- Equality of `Except` values is decidable when it is on both components,
so that concrete runs can be checked by `decide`. -/
instance instDecidableEqExcept {α β : Type} [DecidableEq α] [DecidableEq β] :
    DecidableEq (Except α β) := fun x y =>
  match x, y with
  | Except.error a, Except.error b =>
      if h : a = b then Decidable.isTrue (by rw [h])
      else Decidable.isFalse (by intro hc; injection hc; contradiction)
  | Except.ok a, Except.ok b =>
      if h : a = b then Decidable.isTrue (by rw [h])
      else Decidable.isFalse (by intro hc; injection hc; contradiction)
  | Except.error _, Except.ok _ => Decidable.isFalse (by intro hc; injection hc)
  | Except.ok _, Except.error _ => Decidable.isFalse (by intro hc; injection hc)

/-- `kwargs.get("user_role", "Guest")`. -/
def kwargs_get_user_role : RoleArg → RoleVal
  | RoleArg.given r => RoleVal.role r
  | RoleArg.missing => RoleVal.pyStr "Guest"

/-- The Python comparison `user_role <= role`: an `IntEnum` member compares by
its integer value; comparing a `str` with an `int` raises `TypeError`. -/
def pyLeRole : RoleVal → UserRole → Except PyErr Bool
  | RoleVal.role r, q => Except.ok (decide (r.toNat ≤ q.toNat))
  | RoleVal.pyStr _, _ => Except.error PyErr.typeError

/-- Rendering of the kwarg value inside the denial f-string. -/
def RoleVal.render : RoleVal → String
  | RoleVal.role r => r.repr
  | RoleVal.pyStr s => s

/-- The denial message printed by `require_permission.wrapper`. -/
def denied_message (roleRendered funcName : String) : String :=
  "權限拒絕：角色 " ++ roleRendered ++ " 無法執行 " ++ funcName

/-- A non-raising Python function of the module: positional arguments
`(order_id, quantity)`, the `user_role` keyword argument, result value plus
emitted side effects.  `name` is its `__name__` (`functools.wraps` copies it
through the decorators). -/
structure PyFunc : Type where
  name : String
  call : String × Nat → RoleArg → TermResult × List Event

/-- A Python function that may raise. -/
structure PyFuncE : Type where
  name : String
  call : String × Nat → RoleArg → Except PyErr (TermResult × List Event)

/-- Source `sync_to_erp`: call the wrapped function; if the result is truthy,
print the ERP synchronisation messages (keyed by `result["order_id"]`); return
the result unchanged. -/
def sync_to_erp (func : PyFunc) : PyFunc :=
  { name := func.name,
    call := fun args kw =>
      let res := func.call args kw
      match res.1 with
      | TermResult.record r => (res.1, res.2 ++ [Event.syncERP r.order_id])
      | _ => res }

/-- Source `require_permission(role)`: read `user_role` from the kwargs with
the string default `"Guest"`; if `user_role <= role` print the refusal and
return `None`; otherwise call the wrapped function.  The comparison itself can
raise `TypeError`. -/
def require_permission (role : UserRole) (func : PyFunc) : PyFuncE :=
  { name := func.name,
    call := fun args kw =>
      let v := kwargs_get_user_role kw
      match pyLeRole v role with
      | Except.error e => Except.error e
      | Except.ok true =>
          Except.ok (TermResult.pyNone,
            [Event.denied (denied_message v.render func.name)])
      | Except.ok false => Except.ok (func.call args kw) }

/-- The undecorated body of `report_production`: print the report message and
return the populated record. -/
def report_production_body : PyFunc :=
  { name := "report_production",
    call := fun args _ =>
      (TermResult.record { order_id := args.1, status := "completed" },
       [Event.report args.1 args.2]) }

/-- The decorated `report_production`:
`@require_permission(role=UserRole.OPERATOR)` stacked on `@sync_to_erp`
stacked on the body. -/
def report_production : PyFuncE :=
  require_permission UserRole.OPERATOR (sync_to_erp report_production_body)

/-- Source `class Status(Enum)` with IDLE, RUNNING, FAULT. -/
inductive Status : Type where
  | IDLE : Status
  | RUNNING : Status
  | FAULT : Status
deriving DecidableEq

/-- What an observer's `update(machine_id, status)` body does to the subject it
observes.  `inert` covers the concrete observers of the source
(`MaintenanceEngineer`, `ProductionDashboard`), which only print; `remove j`
models a re-entrant `remove_observer` call on the observer whose identity is
`j` (an observer unregistering itself passes its own identity); `raiseErr`
models an `update` body that raises. -/
inductive ObsAction : Type where
  | inert : ObsAction
  | remove (j : Nat) : ObsAction
  | raiseErr : ObsAction
deriving DecidableEq

/-- A value handed to `register_observer`.  Python object identity is modelled
by `id`; `isObserver` is the `isinstance(observer, Observer)` test; `act` is
the behaviour of its `update` body. -/
structure Obs : Type where
  id : Nat
  isObserver : Bool
  act : ObsAction
deriving DecidableEq

/-- Source `Observable.register_observer`: reject a non-`Observer` argument,
otherwise unconditionally append (there is no duplicate check) and return
`True`. -/
def register_observer (o : Obs) (l : List Obs) : Bool × List Obs :=
  if o.isObserver then (true, l ++ [o]) else (false, l)

/-- Python `list.remove(x)`: delete the first element equal to `x` (object
identity for these observer objects). -/
def removeFirst (j : Nat) : List Obs → List Obs
  | [] => []
  | o :: rest => if o.id = j then rest else o :: removeFirst j rest

/-- Source `Observable.remove_observer`: return `False` without change when the
observer is not present, otherwise delete its first occurrence and return
`True`. -/
def remove_observer (j : Nat) (l : List Obs) : Bool × List Obs :=
  if l.any fun o => o.id = j then (true, removeFirst j l) else (false, l)

/-- Source `Machine` dataclass: `machine_id`, `_status` and the inherited
`_observers` list. -/
structure Machine : Type where
  machine_id : String
  status : Status
  observers : List Obs
deriving DecidableEq

/-- One `observer.update(self.machine_id, self._status)` invocation, recording
the identity of the observer that was called and the arguments it received. -/
structure Delivery : Type where
  observer_id : Nat
  machine_id : String
  status : Status
deriving DecidableEq

/-- The exception an observer's `update` body may raise; `notify_observers` has
no handler, so it propagates. -/
inductive PyExc : Type where
  | updateError : PyExc
deriving DecidableEq

/-- Effect of one `update` body (see `ObsAction`) on the machine. -/
def applyUpdate (ob : Obs) (st : Machine) : Except PyExc Machine :=
  match ob.act with
  | ObsAction.inert => Except.ok st
  | ObsAction.remove j =>
      Except.ok { st with observers := (remove_observer j st.observers).2 }
  | ObsAction.raiseErr => Except.error PyExc.updateError

/-- The `for observer in self._observers` loop of `notify_observers`.  A Python
`for` over a list advances an index and re-checks it against the *live* list
each step, so re-entrant mutation by an `update` body affects the iteration;
this is that index loop.  `fuel` bounds the number of iterations: since every
`ObsAction` leaves the list the same length or shorter, the loop runs at most
`length` iterations, so any `fuel` of at least the initial length is exact.
An unhandled exception aborts the loop and propagates. -/
def notifyLoop : Nat → Nat → Machine → List Delivery → List Delivery × Except PyExc Machine
  | 0, _, st, log => (log, Except.ok st)
  | fuel + 1, i, st, log =>
      if h : i < st.observers.length then
        let ob := st.observers.get ⟨i, h⟩
        let log2 := log ++ [⟨ob.id, st.machine_id, st.status⟩]
        match applyUpdate ob st with
        | Except.error e => (log2, Except.error e)
        | Except.ok st2 => notifyLoop fuel (i + 1) st2 log2
      else (log, Except.ok st)

/-- Source `Machine.notify_observers`: run the delivery loop from index 0.  The
fuel `length + 1` is enough for every possible run (see `notifyLoop`). -/
def notify_observers (st : Machine) : List Delivery × Except PyExc Machine :=
  notifyLoop (st.observers.length + 1) 0 st []

/-- Source `Machine.set_status`: assign `self._status = status` first, then
call `notify_observers` — unconditionally, with no comparison against the
previous status. -/
def set_status (st : Machine) (s : Status) : List Delivery × Except PyExc Machine :=
  notify_observers { st with status := s }

/-- The delivery produced by calling `update` on observer `o` of a machine
carrying the given identifier and status. -/
def mkDelivery (machineId : String) (s : Status) (o : Obs) : Delivery :=
  { observer_id := o.id, machine_id := machineId, status := s }

/-- Once the index has reached the end of the live list the loop stops,
whatever fuel remains. -/
theorem notifyLoop_exit (fuel i : Nat) (st : Machine) (log : List Delivery)
    (h : st.observers.length ≤ i) :
    notifyLoop fuel i st log = (log, Except.ok st) := by
  cases fuel with
  | zero => rfl
  | succ fuel => simp only [notifyLoop]; rw [dif_neg (Nat.not_lt.mpr h)]

/-- Running the loop across a block of inert observers: each member of the
block is delivered to once, in order, the machine is unchanged, and the loop
resumes just past the block. -/
theorem notifyLoop_inert_prefix (mid : List Obs) :
    ∀ (rest : List Obs) (fuelRest i : Nat) (st : Machine) (log : List Delivery),
      st.observers.drop i = mid ++ rest →
      (∀ o ∈ mid, o.act = ObsAction.inert) →
      notifyLoop (mid.length + fuelRest) i st log =
        notifyLoop fuelRest (i + mid.length) st
          (log ++ mid.map (mkDelivery st.machine_id st.status)) := by
  induction mid with
  | nil => intro rest fuelRest i st log hdrop hinert; simp
  | cons o mid ih =>
    intro rest fuelRest i st log hdrop hinert
    have hi : i < st.observers.length := by
      by_contra hge
      have hnil : st.observers.drop i = [] :=
        List.drop_eq_nil_of_le (Nat.le_of_not_lt hge)
      rw [hnil] at hdrop
      simp at hdrop
    have hget : st.observers.drop i =
        st.observers.get ⟨i, hi⟩ :: st.observers.drop (i + 1) := by
      rw [List.get_eq_getElem]
      exact List.drop_eq_getElem_cons hi
    rw [hdrop] at hget
    have hcons : o :: (mid ++ rest) =
        st.observers.get ⟨i, hi⟩ :: st.observers.drop (i + 1) := by
      simpa using hget
    injection hcons with hhead htail
    have ho : o.act = ObsAction.inert := hinert o (List.mem_cons_self o mid)
    have hstep : (o :: mid).length + fuelRest = (mid.length + fuelRest) + 1 := by
      simp [Nat.succ_add]
    rw [hstep]
    simp only [notifyLoop]
    rw [dif_pos hi]
    rw [← hhead]
    have happ : applyUpdate o st = Except.ok st := by
      simp [applyUpdate, ho]
    rw [happ]
    dsimp only
    have ihres := ih rest fuelRest (i + 1) st
      (log ++ [⟨o.id, st.machine_id, st.status⟩]) htail.symm
      (fun x hx => hinert x (List.mem_cons_of_mem o hx))
    rw [ihres]
    have hidx : i + 1 + mid.length = i + (o :: mid).length := by
      simp [Nat.succ_add]
      omega
    rw [hidx]
    have hlog : (log ++ [⟨o.id, st.machine_id, st.status⟩]) ++
        mid.map (mkDelivery st.machine_id st.status) =
        log ++ (o :: mid).map (mkDelivery st.machine_id st.status) := by
      simp [mkDelivery]
    rw [hlog]

/-- A broadcast over a registry whose observers are all inert delivers to every
registered observer once, in registration order, and leaves the machine
unchanged. -/
theorem notify_observers_inert (st : Machine)
    (hinert : ∀ o ∈ st.observers, o.act = ObsAction.inert) :
    notify_observers st =
      (st.observers.map (mkDelivery st.machine_id st.status), Except.ok st) := by
  unfold notify_observers
  have h := notifyLoop_inert_prefix st.observers [] 1 0 st [] (by simp) hinert
  rw [h]
  rw [notifyLoop_exit 1 (0 + st.observers.length) st _ (by omega)]
  simp

/-- `set_status` on an all-inert registry: the status is committed first, every
registered observer is delivered the new status in registration order, and the
registry is unchanged. -/
theorem set_status_inert (st : Machine) (s : Status)
    (hinert : ∀ o ∈ st.observers, o.act = ObsAction.inert) :
    set_status st s =
      (st.observers.map (mkDelivery st.machine_id s),
       Except.ok { st with status := s }) := by
  unfold set_status
  exact notify_observers_inert { st with status := s } hinert

/-- One loop step on an observer whose `update` raises: the observer is still
invoked (its delivery is recorded), then the exception propagates and the loop
aborts. -/
theorem notifyLoop_raise (fuel i : Nat) (st : Machine) (log : List Delivery)
    (hi : i < st.observers.length)
    (hr : (st.observers.get ⟨i, hi⟩).act = ObsAction.raiseErr) :
    notifyLoop (fuel + 1) i st log =
      (log ++ [⟨(st.observers.get ⟨i, hi⟩).id, st.machine_id, st.status⟩],
       Except.error PyExc.updateError) := by
  simp only [notifyLoop]
  rw [dif_pos hi]
  have happ : applyUpdate (st.observers.get ⟨i, hi⟩) st =
      Except.error PyExc.updateError := by
    rw [List.get_eq_getElem] at hr
    simp [applyUpdate, hr]
  rw [happ]

/-- `set_status` when the registry is an inert block followed by an observer
whose `update` raises: the inert block and the raiser are delivered to, the
observers after the raiser get nothing, and the call fails with the
propagated exception. -/
theorem set_status_raise (st : Machine) (s : Status) (pre post : List Obs) (r : Obs)
    (hobs : st.observers = pre ++ r :: post)
    (hpre : ∀ o ∈ pre, o.act = ObsAction.inert)
    (hr : r.act = ObsAction.raiseErr) :
    set_status st s =
      (pre.map (mkDelivery st.machine_id s) ++ [⟨r.id, st.machine_id, s⟩],
       Except.error PyExc.updateError) := by
  unfold set_status notify_observers
  have hobs2 : ({ st with status := s } : Machine).observers = pre ++ r :: post := hobs
  have hfuel : ({ st with status := s } : Machine).observers.length + 1 =
      pre.length + (post.length + 2) := by
    rw [hobs2]
    simp only [List.length_append, List.length_cons]
    omega
  rw [hfuel]
  have hstep := notifyLoop_inert_prefix pre (r :: post) (post.length + 2) 0
    { st with status := s } [] (by rw [hobs2]; simp) hpre
  rw [hstep]
  have hi : pre.length < ({ st with status := s } : Machine).observers.length := by
    rw [hobs2]
    simp only [List.length_append, List.length_cons]
    omega
  have hdrop : ({ st with status := s } : Machine).observers.drop pre.length =
      r :: post := by
    rw [hobs2]
    exact List.drop_left pre (r :: post)
  have hget : ({ st with status := s } : Machine).observers.get ⟨pre.length, hi⟩ = r := by
    have hc : ({ st with status := s } : Machine).observers.get ⟨pre.length, hi⟩ ::
        ({ st with status := s } : Machine).observers.drop (pre.length + 1) =
        r :: post := by
      rw [List.get_eq_getElem, ← List.drop_eq_getElem_cons hi]
      exact hdrop
    injection hc with hh ht
  have hzero : 0 + pre.length = pre.length := by omega
  rw [hzero]
  have hraise := notifyLoop_raise (post.length + 1) pre.length
    { st with status := s } ([] ++ pre.map (mkDelivery st.machine_id s)) hi
    (by rw [hget]; exact hr)
  rw [hget] at hraise
  rw [hraise]
  simp

/-- The denial message is never the empty string, whatever role rendering and
function name are interpolated. -/
theorem denied_message_ne_empty (a b : String) : denied_message a b ≠ "" := by
  intro h
  have hlen := congrArg String.length h
  simp [denied_message, String.length_append] at hlen
  exact absurd hlen.1.2 (by decide)

/-- Claim C1: for every caller role and required role, the authorization stage
executes the wrapped operation exactly when the caller role is strictly
greater than the required role, and otherwise yields the denial outcome; with
requiredRole = OPERATOR, a GUEST caller is denied, an OPERATOR caller (equal
role) is denied, and an ADMIN caller is allowed and receives the completed
result. -/
theorem c1_authorization_strict_greater :
    (∀ (required caller : UserRole) (f : PyFunc) (args : String × Nat),
       (require_permission required f).call args (RoleArg.given caller) =
         if required.toNat < caller.toNat
         then Except.ok (f.call args (RoleArg.given caller))
         else Except.ok (TermResult.pyNone,
           [Event.denied (denied_message caller.repr f.name)])) ∧
    report_production.call ("ORD-001", 100) (RoleArg.given UserRole.GUEST) =
      Except.ok (TermResult.pyNone,
        [Event.denied (denied_message "UserRole.GUEST" "report_production")]) ∧
    report_production.call ("ORD-001", 100) (RoleArg.given UserRole.OPERATOR) =
      Except.ok (TermResult.pyNone,
        [Event.denied (denied_message "UserRole.OPERATOR" "report_production")]) ∧
    report_production.call ("ORD-002", 500) (RoleArg.given UserRole.ADMIN) =
      Except.ok (TermResult.record { order_id := "ORD-002", status := "completed" },
        [Event.report "ORD-002" 500, Event.syncERP "ORD-002"]) := by
  refine ⟨?_, rfl, rfl, rfl⟩
  intro required caller f args
  by_cases h : required.toNat < caller.toNat
  · rw [if_pos h]
    simp [require_permission, kwargs_get_user_role, pyLeRole,
      decide_eq_false (Nat.not_le.mpr h)]
  · rw [if_neg h]
    simp [require_permission, kwargs_get_user_role, pyLeRole, RoleVal.render,
      decide_eq_true (Nat.not_lt.mp h)]

/-- Claim C6: the post-success stage always invokes the wrapped operation,
returns the wrapped operation's result upward unchanged, fires the ERP
synchronisation side effect exactly when the result is truthy (a populated
record), fires it zero extra times on an empty or None result, and adds no
terminal executions of its own. -/
theorem c6_post_success_stage (f : PyFunc) (args : String × Nat) (kw : RoleArg) :
    ((sync_to_erp f).call args kw).1 = (f.call args kw).1 ∧
    (∃ tail, ((sync_to_erp f).call args kw).2 = (f.call args kw).2 ++ tail) ∧
    countSync ((sync_to_erp f).call args kw).2 =
      countSync (f.call args kw).2 +
        (if TermResult.truthy (f.call args kw).1 then 1 else 0) ∧
    countReport ((sync_to_erp f).call args kw).2 = countReport (f.call args kw).2 := by
  cases hres : (f.call args kw).1 with
  | pyNone =>
      refine ⟨?_, ⟨[], ?_⟩, ?_, ?_⟩ <;>
        simp [sync_to_erp, hres, TermResult.truthy, countSync, countReport]
  | emptyDict =>
      refine ⟨?_, ⟨[], ?_⟩, ?_, ?_⟩ <;>
        simp [sync_to_erp, hres, TermResult.truthy, countSync, countReport]
  | record r =>
      refine ⟨?_, ⟨[Event.syncERP r.order_id], ?_⟩, ?_, ?_⟩ <;>
        simp [sync_to_erp, hres, TermResult.truthy, countSync, countReport,
          List.filter_append]

/-- Claim C8: a denying gate returns a normal, non-exceptional outcome — the
None result together with the printed refusal carrying a non-empty
human-readable reason — and the wrapped chain below it is never invoked, so
the outcome records zero terminal executions and zero synchronisation side
effects. -/
theorem c8_denied_outcome (required : UserRole) (f : PyFunc)
    (args : String × Nat) (c : UserRole)
    (h : c.toNat ≤ required.toNat) :
    (require_permission required f).call args (RoleArg.given c) =
      Except.ok (TermResult.pyNone,
        [Event.denied (denied_message c.repr f.name)]) ∧
    denied_message c.repr f.name ≠ "" ∧
    (∀ out, (require_permission required f).call args (RoleArg.given c) =
        Except.ok out →
      countReport out.2 = 0 ∧ countSync out.2 = 0) := by
  have hcall : (require_permission required f).call args (RoleArg.given c) =
      Except.ok (TermResult.pyNone,
        [Event.denied (denied_message c.repr f.name)]) := by
    simp [require_permission, kwargs_get_user_role, pyLeRole, RoleVal.render,
      decide_eq_true h]
  refine ⟨hcall, denied_message_ne_empty _ _, ?_⟩
  intro out hout
  rw [hcall] at hout
  injection hout with hout2
  rw [← hout2]
  constructor <;> rfl

/-- Claim C8 witness: with requiredRole = OPERATOR and an OPERATOR caller, the
denial outcome of the full report chain is the non-exceptional None result
with the non-empty refusal message, and no terminal or sync effects. -/
theorem c8_denied_outcome_witness :
    report_production.call ("ORD-001", 100) (RoleArg.given UserRole.OPERATOR) =
      Except.ok (TermResult.pyNone,
        [Event.denied (denied_message UserRole.OPERATOR.repr "report_production")]) ∧
    denied_message UserRole.OPERATOR.repr "report_production" ≠ "" ∧
    (∀ out, report_production.call ("ORD-001", 100) (RoleArg.given UserRole.OPERATOR) =
        Except.ok out →
      countReport out.2 = 0 ∧ countSync out.2 = 0) :=
  c8_denied_outcome UserRole.OPERATOR (sync_to_erp report_production_body)
    ("ORD-001", 100) UserRole.OPERATOR (by decide)

/-- Claim C10: calling the wrapped operation without the user_role keyword
argument makes the guard compare the string default "Guest" with the IntEnum,
raising TypeError instead of producing a denial; with any enumeration role
supplied the call never raises, and the denial outcome (None) is produced
exactly for roles not strictly above the requirement. -/
theorem c10_missing_kwarg_type_error (required : UserRole) (f : PyFunc)
    (args : String × Nat) :
    (require_permission required f).call args RoleArg.missing =
      Except.error PyErr.typeError ∧
    (∀ c : UserRole, ∃ out,
       (require_permission required f).call args (RoleArg.given c) =
         Except.ok out) ∧
    (∀ c : UserRole, c.toNat ≤ required.toNat →
       (require_permission required f).call args (RoleArg.given c) =
         Except.ok (TermResult.pyNone,
           [Event.denied (denied_message c.repr f.name)])) := by
  refine ⟨rfl, ?_, ?_⟩
  · intro c
    by_cases h : c.toNat ≤ required.toNat
    · exact ⟨(TermResult.pyNone, [Event.denied (denied_message c.repr f.name)]),
        by simp [require_permission, kwargs_get_user_role, pyLeRole,
          RoleVal.render, decide_eq_true h]⟩
    · exact ⟨f.call args (RoleArg.given c),
        by simp [require_permission, kwargs_get_user_role, pyLeRole,
          decide_eq_false h]⟩
  · intro c h
    simp [require_permission, kwargs_get_user_role, pyLeRole, RoleVal.render,
      decide_eq_true h]

/-- Claim C10 witness: the bare call of the source driver shape without
user_role raises TypeError, while a GUEST caller gets the ordinary denial. -/
theorem c10_missing_kwarg_type_error_witness :
    report_production.call ("ORD-001", 100) RoleArg.missing =
      Except.error PyErr.typeError ∧
    report_production.call ("ORD-001", 100) (RoleArg.given UserRole.GUEST) =
      Except.ok (TermResult.pyNone,
        [Event.denied (denied_message UserRole.GUEST.repr "report_production")]) :=
  ⟨(c10_missing_kwarg_type_error UserRole.OPERATOR
      (sync_to_erp report_production_body) ("ORD-001", 100)).1,
   (c10_missing_kwarg_type_error UserRole.OPERATOR
      (sync_to_erp report_production_body) ("ORD-001", 100)).2.2
      UserRole.GUEST (by decide)⟩

/-- Claim C5: for every invocation of the chain authorize(OPERATOR) over sync
over the report terminal, the terminal executes at most once, and exactly once
precisely when the gate allows passage (caller strictly above OPERATOR); a
GUEST caller gets the denial outcome with zero terminal executions and zero
sync side effects; an ADMIN caller gets the completed record with exactly one
terminal execution and exactly one sync side effect. -/
theorem c5_chain_gating (args : String × Nat) (c : UserRole)
    (out : TermResult × List Event)
    (h : report_production.call args (RoleArg.given c) = Except.ok out) :
    countReport out.2 ≤ 1 ∧
    (countReport out.2 = 1 ↔ UserRole.OPERATOR.toNat < c.toNat) ∧
    (c = UserRole.GUEST →
      out = (TermResult.pyNone,
        [Event.denied (denied_message "UserRole.GUEST" "report_production")]) ∧
      countReport out.2 = 0 ∧ countSync out.2 = 0) ∧
    (c = UserRole.ADMIN →
      out = (TermResult.record { order_id := args.1, status := "completed" },
        [Event.report args.1 args.2, Event.syncERP args.1]) ∧
      countReport out.2 = 1 ∧ countSync out.2 = 1) := by
  cases c with
  | GUEST =>
      simp only [report_production, require_permission, sync_to_erp,
        report_production_body, kwargs_get_user_role, pyLeRole,
        RoleVal.render, UserRole.repr, UserRole.toNat] at h
      injection h with h2
      rw [← h2]
      refine ⟨by simp [countReport], by simp [countReport, UserRole.toNat], ?_, ?_⟩
      · intro _
        exact ⟨rfl, by simp [countReport], by simp [countSync]⟩
      · intro hc
        cases hc
  | OPERATOR =>
      simp only [report_production, require_permission, sync_to_erp,
        report_production_body, kwargs_get_user_role, pyLeRole,
        RoleVal.render, UserRole.repr, UserRole.toNat] at h
      injection h with h2
      rw [← h2]
      refine ⟨by simp [countReport], by simp [countReport, UserRole.toNat], ?_, ?_⟩
      · intro hc
        cases hc
      · intro hc
        cases hc
  | ADMIN =>
      simp only [report_production, require_permission, sync_to_erp,
        report_production_body, kwargs_get_user_role, pyLeRole,
        RoleVal.render, UserRole.repr, UserRole.toNat] at h
      injection h with h2
      rw [← h2]
      refine ⟨by simp [countReport], by simp [countReport, UserRole.toNat], ?_, ?_⟩
      · intro hc
        cases hc
      · intro _
        exact ⟨rfl, by simp [countReport], by simp [countSync]⟩

/-- Claim C5 witness: the ADMIN invocation of the driver — terminal executed
exactly once, completed record returned, exactly one sync side effect. -/
theorem c5_chain_gating_witness :
    countReport [Event.report "ORD-002" 500, Event.syncERP "ORD-002"] ≤ 1 ∧
    (countReport [Event.report "ORD-002" 500, Event.syncERP "ORD-002"] = 1 ↔
      UserRole.OPERATOR.toNat < UserRole.ADMIN.toNat) ∧
    (UserRole.ADMIN = UserRole.GUEST →
      ((TermResult.record { order_id := "ORD-002", status := "completed" },
        [Event.report "ORD-002" 500, Event.syncERP "ORD-002"]) :
          TermResult × List Event) =
        (TermResult.pyNone,
          [Event.denied (denied_message "UserRole.GUEST" "report_production")]) ∧
      countReport [Event.report "ORD-002" 500, Event.syncERP "ORD-002"] = 0 ∧
      countSync [Event.report "ORD-002" 500, Event.syncERP "ORD-002"] = 0) ∧
    (UserRole.ADMIN = UserRole.ADMIN →
      ((TermResult.record { order_id := "ORD-002", status := "completed" },
        [Event.report "ORD-002" 500, Event.syncERP "ORD-002"]) :
          TermResult × List Event) =
        (TermResult.record { order_id := "ORD-002", status := "completed" },
          [Event.report "ORD-002" 500, Event.syncERP "ORD-002"]) ∧
      countReport [Event.report "ORD-002" 500, Event.syncERP "ORD-002"] = 1 ∧
      countSync [Event.report "ORD-002" 500, Event.syncERP "ORD-002"] = 1) :=
  c5_chain_gating ("ORD-002", 500) UserRole.ADMIN
    (TermResult.record { order_id := "ORD-002", status := "completed" },
     [Event.report "ORD-002" 500, Event.syncERP "ORD-002"]) rfl

/-- A machine whose first registered observer raises from its update body and
whose second is an ordinary (inert) observer. -/
def raiseScenario : Machine :=
  { machine_id := "CNC-001", status := Status.IDLE,
    observers := [⟨1, true, ObsAction.raiseErr⟩, ⟨2, true, ObsAction.inert⟩] }

/-- Claim C2 counterexample: with subscriber 1 raising during the broadcast,
subscriber 2 — registered and later in registration order — receives no
delivery, and the set_status call itself fails with the propagated exception;
the failure is not recorded and delivery does not proceed. -/
theorem c2_counterexample :
    (set_status raiseScenario Status.RUNNING).2 = Except.error PyExc.updateError ∧
    (set_status raiseScenario Status.RUNNING).1.map Delivery.observer_id = [1] ∧
    raiseScenario.observers.map Obs.id = [1, 2] := by
  decide

/-- Claim C2 amended: `notify_observers` has no exception handling, so an error
raised by one subscriber during the broadcast aborts the fan-out: subscribers
before the raiser and the raiser itself are invoked, every subscriber after it
is skipped, and the exception propagates, failing the set_status call. -/
theorem c2_amended_raise_aborts (st : Machine) (s : Status)
    (pre post : List Obs) (r : Obs)
    (hobs : st.observers = pre ++ r :: post)
    (hpre : ∀ o ∈ pre, o.act = ObsAction.inert)
    (hr : r.act = ObsAction.raiseErr) :
    set_status st s =
      (pre.map (mkDelivery st.machine_id s) ++ [⟨r.id, st.machine_id, s⟩],
       Except.error PyExc.updateError) :=
  set_status_raise st s pre post r hobs hpre hr

/-- Claim C2 amended witness: the two-subscriber raising scenario evaluated
through the amended theorem. -/
theorem c2_amended_raise_aborts_witness :
    set_status raiseScenario Status.RUNNING =
      (([] : List Obs).map (mkDelivery "CNC-001" Status.RUNNING) ++
        [⟨1, "CNC-001", Status.RUNNING⟩],
       Except.error PyExc.updateError) :=
  c2_amended_raise_aborts raiseScenario Status.RUNNING []
    [⟨2, true, ObsAction.inert⟩] ⟨1, true, ObsAction.raiseErr⟩ rfl
    (by intro o ho; cases ho) rfl

/-- The observer value used in the duplicate-registration scenarios. -/
def dupObserver : Obs := ⟨1, true, ObsAction.inert⟩

/-- Claim C3 counterexample: registering an observer that is already in the
registry returns True (not false) and appends a second entry, leaving two
entries for it — registration is not an idempotent no-op. -/
theorem c3_counterexample :
    register_observer dupObserver [dupObserver] =
      (true, [dupObserver, dupObserver]) ∧
    (register_observer dupObserver [dupObserver]).2.count dupObserver = 2 := by
  decide

/-- Claim C3 amended: `register_observer` performs no duplicate check: for any
argument satisfying the observer capability test — already registered or not —
it returns true and appends the argument, increasing its entry count by one;
only a non-Observer argument returns false with no side effect. -/
theorem c3_amended_register_appends (l : List Obs) (o : Obs) :
    (o.isObserver = true →
       register_observer o l = (true, l ++ [o]) ∧
       (register_observer o l).2.count o = l.count o + 1) ∧
    (o.isObserver = false → register_observer o l = (false, l)) := by
  constructor
  · intro h
    refine ⟨by simp [register_observer, h], ?_⟩
    simp [register_observer, h, List.count_append]
  · intro h
    simp [register_observer, h]

/-- Claim C3 amended witness: the duplicate-registration scenario evaluated
through the amended theorem. -/
theorem c3_amended_register_appends_witness :
    register_observer dupObserver [dupObserver] =
      (true, [dupObserver] ++ [dupObserver]) ∧
    (register_observer dupObserver [dupObserver]).2.count dupObserver =
      [dupObserver].count dupObserver + 1 :=
  (c3_amended_register_appends [dupObserver] dupObserver).1 rfl

/-- A machine whose first registered observer unregisters itself from within
its own update callback and whose second is an ordinary (inert) observer. -/
def removeScenario : Machine :=
  { machine_id := "CNC-001", status := Status.IDLE,
    observers := [⟨1, true, ObsAction.remove 1⟩, ⟨2, true, ObsAction.inert⟩] }

/-- Claim C4 counterexample: observer 1 unregisters itself during its own
update, and observer 2 — registered at the moment set_status was invoked — is
skipped by the in-progress broadcast: the delivered set is not the
registered-at-invocation set, and re-entrant mutation did change who was
notified. -/
theorem c4_counterexample :
    removeScenario.observers.map Obs.id = [1, 2] ∧
    (set_status removeScenario Status.RUNNING).1.map Delivery.observer_id = [1] := by
  decide

/-- Claim C4 amended: the broadcast iterates the live subscriber list rather
than a snapshot: when no update body mutates the registry, the delivered
sequence is exactly the registered sequence at the moment of the call, but a
subscriber that unregisters itself during its own update shifts the live
iteration and the subscriber after it is skipped in that broadcast. -/
theorem c4_amended_live_iteration :
    (∀ (st : Machine) (s : Status),
       (∀ o ∈ st.observers, o.act = ObsAction.inert) →
       (set_status st s).1.map Delivery.observer_id = st.observers.map Obs.id) ∧
    removeScenario.observers.map Obs.id = [1, 2] ∧
    (set_status removeScenario Status.RUNNING).1.map Delivery.observer_id = [1] := by
  refine ⟨?_, by decide, by decide⟩
  intro st s h
  rw [set_status_inert st s h]
  simp [mkDelivery, Delivery.observer_id]

/-- Claim C4 amended witness: the snapshot-free equality applied to a concrete
all-inert two-observer machine. -/
theorem c4_amended_live_iteration_witness :
    (set_status { machine_id := "CNC-001", status := Status.IDLE,
                  observers := [⟨1, true, ObsAction.inert⟩,
                                ⟨2, true, ObsAction.inert⟩] }
      Status.RUNNING).1.map Delivery.observer_id =
      ([⟨1, true, ObsAction.inert⟩, ⟨2, true, ObsAction.inert⟩] : List Obs).map
        Obs.id :=
  c4_amended_live_iteration.1
    { machine_id := "CNC-001", status := Status.IDLE,
      observers := [⟨1, true, ObsAction.inert⟩, ⟨2, true, ObsAction.inert⟩] }
    Status.RUNNING (by decide)

/-- The two-inert-subscriber machine of the double-broadcast scenario. -/
def twoSubscribers : Machine :=
  { machine_id := "CNC-001", status := Status.IDLE,
    observers := [⟨1, true, ObsAction.inert⟩, ⟨2, true, ObsAction.inert⟩] }

/-- Claim C7: set_status commits the new status to the entity first and then
synchronously delivers update(machine_id, newStatus) to every
currently-registered subscriber in registration order; the broadcast is not
suppressed when the new status equals the previous one — repeating the call on
the already-updated machine yields the same full broadcast, and two
consecutive set_status RUNNING calls on a machine with two registered
subscribers deliver exactly two updates to each subscriber. -/
theorem c7_set_status_broadcast (st : Machine) (s : Status)
    (hinert : ∀ o ∈ st.observers, o.act = ObsAction.inert) :
    set_status st s =
      (st.observers.map (mkDelivery st.machine_id s),
       Except.ok { st with status := s }) ∧
    (set_status { st with status := s } s).1 = (set_status st s).1 ∧
    ((set_status twoSubscribers Status.RUNNING).1 ++
      (set_status { twoSubscribers with status := Status.RUNNING }
        Status.RUNNING).1).countP (fun d => d.observer_id == 1) = 2 ∧
    ((set_status twoSubscribers Status.RUNNING).1 ++
      (set_status { twoSubscribers with status := Status.RUNNING }
        Status.RUNNING).1).countP (fun d => d.observer_id == 2) = 2 := by
  refine ⟨set_status_inert st s hinert, ?_, by decide, by decide⟩
  rw [set_status_inert st s hinert,
    set_status_inert { st with status := s } s hinert]

/-- Claim C7 witness: the broadcast equation applied to the concrete
two-subscriber machine. -/
theorem c7_set_status_broadcast_witness :
    set_status twoSubscribers Status.RUNNING =
      (twoSubscribers.observers.map
        (mkDelivery twoSubscribers.machine_id Status.RUNNING),
       Except.ok { twoSubscribers with status := Status.RUNNING }) ∧
    (set_status { twoSubscribers with status := Status.RUNNING }
      Status.RUNNING).1 = (set_status twoSubscribers Status.RUNNING).1 ∧
    ((set_status twoSubscribers Status.RUNNING).1 ++
      (set_status { twoSubscribers with status := Status.RUNNING }
        Status.RUNNING).1).countP (fun d => d.observer_id == 1) = 2 ∧
    ((set_status twoSubscribers Status.RUNNING).1 ++
      (set_status { twoSubscribers with status := Status.RUNNING }
        Status.RUNNING).1).countP (fun d => d.observer_id == 2) = 2 :=
  c7_set_status_broadcast twoSubscribers Status.RUNNING (by decide)

/-- Claim C9: registry membership is by identity with no deduplication, so
registering the same observer twice makes the next broadcast deliver to that
observer exactly two more times than before. -/
theorem c9_identity_double_delivery (st : Machine) (o : Obs) (s : Status)
    (ho : o.isObserver = true) (hact : o.act = ObsAction.inert)
    (hinert : ∀ x ∈ st.observers, x.act = ObsAction.inert) :
    (set_status { st with observers :=
        (register_observer o (register_observer o st.observers).2).2 } s).1.countP
      (fun d => d.observer_id == o.id) =
      st.observers.countP (fun x => x.id == o.id) + 2 := by
  have hreg : (register_observer o (register_observer o st.observers).2).2 =
      (st.observers ++ [o]) ++ [o] := by
    simp [register_observer, ho]
  rw [hreg]
  have hinert2 : ∀ x ∈ ({ st with observers :=
      (st.observers ++ [o]) ++ [o] } : Machine).observers,
      x.act = ObsAction.inert := by
    intro x hx
    simp only [List.mem_append, List.mem_singleton] at hx
    rcases hx with (hx | hx) | hx
    · exact hinert x hx
    · rw [hx]; exact hact
    · rw [hx]; exact hact
  rw [set_status_inert _ s hinert2]
  simp [List.countP_map, List.countP_append, mkDelivery, Function.comp_def]

/-- Claim C9 witness: starting from an empty registry, registering the same
observer twice yields exactly two deliveries to it on the next broadcast. -/
theorem c9_identity_double_delivery_witness :
    (set_status { machine_id := "CNC-001", status := Status.IDLE,
                  observers := (register_observer ⟨7, true, ObsAction.inert⟩
                    (register_observer ⟨7, true, ObsAction.inert⟩ []).2).2 }
      Status.RUNNING).1.countP (fun d => d.observer_id == 7) =
      ([] : List Obs).countP (fun x => x.id == 7) + 2 :=
  c9_identity_double_delivery
    { machine_id := "CNC-001", status := Status.IDLE, observers := [] }
    ⟨7, true, ObsAction.inert⟩ Status.RUNNING rfl rfl
    (by intro x hx; cases hx)
